import Mathlib

set_option autoImplicit false

/-!
# Verification of the wordplan Smart Tutor Chat core

A shallow embedding of the wordplan repository's data model and operations:
the Supabase schema (`supabase/migrations/20250215000000_create_chat_tables.sql`,
`supabase/migrations/20260215000000_create_pronunciation_tips_cache.sql`),
the frontend API layer (`web/src/lib/ai-service.ts`), the chat UI handlers
(`chat-input.tsx`, `word-suggestion-card.tsx`, the `useChat` hook), and the
pronunciation cache hook (`use-pronunciation-cache.ts`). The Python AI
backend (`ai/run.py` and the `chat_tutor_crew`) is not part of the source
tree here; where a property depends on it, the pipeline is modelled from the
specification and each such definition says so in its doc comment.
-/

namespace Wordplan

/-- Whitespace trimming as performed by the sources (TypeScript
`String.prototype.trim()` on the frontend, `str.strip()` on the backend):
drop leading and trailing whitespace characters. Defined by structural
recursion over the character list so the kernel can evaluate it. -/
def trimChars (l : List Char) : List Char :=
  (((l.dropWhile Char.isWhitespace).reverse).dropWhile Char.isWhitespace).reverse

/-- The `String` version of `trimChars`. -/
def strTrim (s : String) : String :=
  ⟨trimChars s.data⟩

/-- A row of `public.word_pairs`
(migration `20250215000000_create_chat_tables.sql`): identifier, owner,
source word, translated word, optional context sentence, creation time.
The table carries `unique(user_id, source_word, translated_word)`. -/
structure WordPair where
  id : Nat
  user_id : Nat
  source_word : String
  translated_word : String
  context_sentence : Option String
  created_at : Nat
  deriving Repr, DecidableEq

/-- A row of `public.chats`: identifier, owner, optional title, timestamps. -/
structure Chat where
  id : Nat
  user_id : Nat
  title : Option String
  created_at : Nat
  updated_at : Nat
  deriving Repr, DecidableEq

/-- The optional `data` object of `TutorResponseContent` in `ai-service.ts`
(`{ word?, translation?, example? }`); the field `example` is spelled
`example_` because `example` is a Lean keyword. -/
structure SuggestionData where
  word : String
  translation : String
  example_ : String
  deriving Repr, DecidableEq

/-- The `ToolCall` interface from `ai-service.ts`: a tool name plus its arguments
(modelled as a name/value list in place of `Record<string, unknown>`). -/
structure ToolCall where
  name : String
  arguments : List (String × String)
  deriving Repr, DecidableEq

/-- The `TutorResponseContent` interface from `ai-service.ts`: the assistant payload.
`response_type` is the TypeScript string union
`'text' | 'word_suggestion' | 'save_confirmation' | 'error'`, embedded
as `String` so that membership in the closed set is a real theorem. -/
structure TutorResponseContent where
  response_type : String
  content : String
  data : Option SuggestionData
  tool_calls : List ToolCall
  deriving Repr, DecidableEq

/-- The `content` jsonb column of `public.chat_messages`: a plain
`{ content: string }` payload for user turns, or a `TutorResponseContent`
for assistant turns (the union type in `ai-service.ts` `ChatMessage`). -/
inductive MsgContent where
  | user (content : String)
  | tutor (c : TutorResponseContent)
  deriving Repr, DecidableEq

/-- A row of `public.chat_messages`: identifier, parent chat, role,
polymorphic content, creation time. `seq` records physical insertion
order (rows are only ever appended; it breaks `created_at` ties). -/
structure Msg where
  id : Nat
  chat_id : Nat
  role : String
  content : MsgContent
  created_at : Nat
  seq : Nat
  deriving Repr, DecidableEq

/-- The storage reachable by the chat pipeline: the three Supabase tables,
an id/sequence counter for fresh rows, and a count of external LLM calls
made so far (classification + generation), used to state that validation
failures spend no LLM call. -/
structure Store where
  chats : List Chat
  messages : List Msg
  wordPairs : List WordPair
  nextId : Nat
  nextSeq : Nat
  llmCalls : Nat
  deriving Repr, DecidableEq

/-- An empty store, used to instantiate universally quantified theorems. -/
def emptyStore : Store :=
  { chats := [], messages := [], wordPairs := [], nextId := 0, nextSeq := 0,
    llmCalls := 0 }

/-- The natural-key predicate of `public.word_pairs`:
`unique(user_id, source_word, translated_word)` from the migration. -/
def keyMatches (uid : Nat) (sw tw : String) (p : WordPair) : Bool :=
  p.user_id == uid && p.source_word == sw && p.translated_word == tw

/-- Number of `word_pairs` rows with the given natural key. -/
def countKey (l : List WordPair) (uid : Nat) (sw tw : String) : Nat :=
  l.countP (keyMatches uid sw tw)

/-- The storage invariant enforced by
`unique(user_id, source_word, translated_word)`: at most one row per key. -/
def UniqueWordPairKeys (l : List WordPair) : Prop :=
  ∀ uid sw tw, countKey l uid sw tw ≤ 1

/-- Errors surfaced by the pipeline (spec §7): a `ValidationError` for
empty/malformed input. Upstream generation failures are absorbed into an
`error`-typed assistant message, so they do not appear here. -/
inductive PipelineError where
  | validation
  deriving Repr, DecidableEq

/-- Modelled from the spec (§4.3 Tool Executor — `save_word_pair`; the
implementation lives in the Python backend `ai/` which is not in the source
tree). Validates that source and translated word are non-empty after
trimming, then upserts by the natural key enforced by the migration's
`unique(user_id, source_word, translated_word)` constraint: if a row with
the same (owner, source word, translated word) exists, no new row is
created and the existing identifier is returned; otherwise one row is
inserted. Returns the updated store and the row identifier. -/
def save_word_pair (s : Store) (uid : Nat) (sw tw : String)
    (ctx : Option String) (time : Nat) : Store × Except PipelineError Nat :=
  if strTrim sw = "" ∨ strTrim tw = "" then
    (s, .error .validation)
  else
    match s.wordPairs.find? (keyMatches uid sw tw) with
    | some p => (s, .ok p.id)
    | none =>
        let row : WordPair :=
          { id := s.nextId, user_id := uid, source_word := sw,
            translated_word := tw, context_sentence := ctx,
            created_at := time }
        ({ s with wordPairs := row :: s.wordPairs, nextId := s.nextId + 1 },
         .ok row.id)

/-- Modelled from the spec (§4.1 Router; the router agent lives in the
backend `chat_tutor_crew` which is not in the source tree): the outcome of
the classification LLM call — one of the three specialists, an out-of-domain
decline carrying the decline wording, or a failed/timed-out call. -/
inductive RouterDecision where
  | translation
  | vocabulary
  | general
  | outOfDomain (decline : String)
  | failure
  deriving Repr, DecidableEq

/-- Modelled from the spec (§4.2 Vocabulary specialist, backend not in the
source tree): the outcome of the vocabulary generation call — a word worth
saving (suggestion), an explicit user save request, or a failed call. -/
inductive VocabOutcome where
  | suggestion (text word translation ex : String)
  | saveRequest (word translation ex : String)
  | failure
  deriving Repr, DecidableEq

/-- Modelled from the spec (§5: the external LLM calls are the only
suspension points): the outcomes of the external LLM calls consumed by one
pipeline run, supplied as data so the pipeline itself is a pure function.
`transReply`/`generalReply` are `none` when the generation call failed. -/
structure LlmEnv where
  router : RouterDecision
  transReply : Option String
  generalReply : Option String
  vocab : VocabOutcome
  deriving Repr, DecidableEq

/-- Modelled from the spec (§4.1/§4.2 failure contracts): the deterministic
user-safe `error` payload produced when an LLM call fails. -/
def errorContent : TutorResponseContent :=
  { response_type := "error",
    content := "Sorry, something went wrong. Please try again.",
    data := none, tool_calls := [] }

/-- A plain `text` payload (translation replies, general replies,
out-of-domain declines). -/
def textContent (t : String) : TutorResponseContent :=
  { response_type := "text", content := t, data := none, tool_calls := [] }

/-- Modelled from the spec (§4.2): the `word_suggestion` payload — `data`
populated with word, translation and example, and zero tool calls. -/
def wordSuggestionContent (text w t e : String) : TutorResponseContent :=
  { response_type := "word_suggestion", content := text,
    data := some { word := w, translation := t, example_ := e },
    tool_calls := [] }

/-- Modelled from the spec (§4.2/§4.3): the `save_confirmation` payload,
referencing the persisted (or pre-existing) row identifier, with the
executed tool call recorded in `tool_calls`. -/
def saveConfirmationContent (i : Nat) (w t e : String) : TutorResponseContent :=
  { response_type := "save_confirmation",
    content := "Saved " ++ w ++ " → " ++ t ++ " to your list (entry "
      ++ toString i ++ ").",
    data := none,
    tool_calls := [{ name := "save_word_pair",
                     arguments := [("source_word", w), ("translated_word", t),
                                   ("context_sentence", e)] }] }

/-- One external LLM call is spent. -/
def bumpLlm (s : Store) : Store :=
  { s with llmCalls := s.llmCalls + 1 }

/-- Modelled from the spec (§4.4 Response Envelope & Persistence Adapter,
backend not in the source tree): a `null` chat identifier means "start a new
chat", created before the first message is attached; a non-null identifier
is used as-is. Returns the store and the resolved chat identifier. -/
def resolveChat (s : Store) (uid : Nat) (chatId : Option Nat) (time : Nat) :
    Store × Nat :=
  match chatId with
  | some cid => (s, cid)
  | none =>
      let c : Chat := { id := s.nextId, user_id := uid, title := none,
                        created_at := time, updated_at := time }
      ({ s with chats := s.chats ++ [c], nextId := s.nextId + 1 }, c.id)

/-- Modelled from the spec (§4.4): persist the user turn and the assistant
turn of one pipeline run — `chat_messages` rows are only ever appended — and
return the fully populated assistant `Msg`. -/
def persistTurn (s : Store) (uid : Nat) (chatId : Option Nat)
    (userText : String) (c : TutorResponseContent) (time : Nat) :
    Store × Msg :=
  let s1 := (resolveChat s uid chatId time).1
  let cid := (resolveChat s uid chatId time).2
  let um : Msg := { id := s1.nextId, chat_id := cid, role := "user",
                    content := .user userText, created_at := time,
                    seq := s1.nextSeq }
  let am : Msg := { id := s1.nextId + 1, chat_id := cid, role := "assistant",
                    content := .tutor c, created_at := time,
                    seq := s1.nextSeq + 1 }
  ({ s1 with messages := s1.messages ++ [um, am], nextId := s1.nextId + 2,
             nextSeq := s1.nextSeq + 2 }, am)

/-- Modelled from the spec (§2 control flow, §4, §7; the Flask handler and
`chat_tutor_crew` are not in the source tree): one `POST /api/chat/message`
pipeline run. An empty/whitespace-only message is rejected with a
`ValidationError` before any LLM call; otherwise the router classification
call is spent, then the selected specialist's generation call; generation
failures are absorbed into an `error` message; a vocabulary save request
invokes `save_word_pair` and reports `save_confirmation`; the resulting turn
is persisted and the assistant message returned. -/
def processMessage (env : LlmEnv) (s : Store) (uid : Nat)
    (chatId : Option Nat) (message : String) (time : Nat) :
    Store × Except PipelineError Msg :=
  if strTrim message = "" then
    (s, .error .validation)
  else
    let s1 := bumpLlm s
    match env.router with
    | .failure =>
        let pr := persistTurn s1 uid chatId message errorContent time
        (pr.1, .ok pr.2)
    | .outOfDomain decline =>
        let pr := persistTurn s1 uid chatId message (textContent decline) time
        (pr.1, .ok pr.2)
    | .translation =>
        let s2 := bumpLlm s1
        let c := match env.transReply with
                 | some t => textContent t
                 | none => errorContent
        let pr := persistTurn s2 uid chatId message c time
        (pr.1, .ok pr.2)
    | .general =>
        let s2 := bumpLlm s1
        let c := match env.generalReply with
                 | some t => textContent t
                 | none => errorContent
        let pr := persistTurn s2 uid chatId message c time
        (pr.1, .ok pr.2)
    | .vocabulary =>
        let s2 := bumpLlm s1
        match env.vocab with
        | .failure =>
            let pr := persistTurn s2 uid chatId message errorContent time
            (pr.1, .ok pr.2)
        | .suggestion text w t e =>
            let pr := persistTurn s2 uid chatId message
              (wordSuggestionContent text w t e) time
            (pr.1, .ok pr.2)
        | .saveRequest w t e =>
            let sv := save_word_pair s2 uid w t (some e) time
            match sv.2 with
            | .error _ =>
                let pr := persistTurn sv.1 uid chatId message errorContent time
                (pr.1, .ok pr.2)
            | .ok i =>
                let pr := persistTurn sv.1 uid chatId message
                  (saveConfirmationContent i w t e) time
                (pr.1, .ok pr.2)

/-- The closed set of `ResponseType` values from `ai-service.ts`. -/
def responseTypes : List String :=
  ["text", "word_suggestion", "save_confirmation", "error"]

/-- The assistant message built by `persistTurn` has role `assistant` and
carries exactly the specialist payload it was given. -/
theorem persistTurn_snd (s : Store) (uid : Nat) (chatId : Option Nat)
    (userText : String) (c : TutorResponseContent) (time : Nat) :
    ((persistTurn s uid chatId userText c time).2).role = "assistant" ∧
    ((persistTurn s uid chatId userText c time).2).content = .tutor c := by
  simp [persistTurn]

/-- The function `save_word_pair` only touches the word-pair table and the id counter:
chats and messages are untouched, the id counter never decreases. -/
theorem save_word_pair_fst_frame (s : Store) (uid : Nat) (sw tw : String)
    (ctx : Option String) (time : Nat) :
    ((save_word_pair s uid sw tw ctx time).1).chats = s.chats ∧
    ((save_word_pair s uid sw tw ctx time).1).messages = s.messages ∧
    s.nextId ≤ ((save_word_pair s uid sw tw ctx time).1).nextId := by
  unfold save_word_pair
  split
  · exact ⟨rfl, rfl, le_refl _⟩
  · split
    · exact ⟨rfl, rfl, le_refl _⟩
    · exact ⟨rfl, rfl, Nat.le_succ _⟩

/-- Every non-empty message makes the pipeline succeed, and the result is a
persisted turn for one of the payloads of the closed response-type set. -/
theorem processMessage_ok_shape (env : LlmEnv) (s : Store) (uid : Nat)
    (chatId : Option Nat) (message : String) (time : Nat)
    (h : ¬strTrim message = "") :
    ∃ s' c, processMessage env s uid chatId message time
        = ((persistTurn s' uid chatId message c time).1,
           Except.ok (persistTurn s' uid chatId message c time).2)
      ∧ c.response_type ∈ responseTypes
      ∧ s'.chats = s.chats ∧ s'.messages = s.messages
      ∧ s.nextId ≤ s'.nextId := by
  cases henv : env.router with
  | translation =>
      cases ht : env.transReply with
      | some t =>
          exact ⟨bumpLlm (bumpLlm s), textContent t,
            by simp [processMessage, h, henv, ht],
            by simp [textContent, responseTypes], rfl, rfl, le_refl _⟩
      | none =>
          exact ⟨bumpLlm (bumpLlm s), errorContent,
            by simp [processMessage, h, henv, ht],
            by simp [errorContent, responseTypes], rfl, rfl, le_refl _⟩
  | general =>
      cases hg : env.generalReply with
      | some t =>
          exact ⟨bumpLlm (bumpLlm s), textContent t,
            by simp [processMessage, h, henv, hg],
            by simp [textContent, responseTypes], rfl, rfl, le_refl _⟩
      | none =>
          exact ⟨bumpLlm (bumpLlm s), errorContent,
            by simp [processMessage, h, henv, hg],
            by simp [errorContent, responseTypes], rfl, rfl, le_refl _⟩
  | outOfDomain d =>
      exact ⟨bumpLlm s, textContent d,
        by simp [processMessage, h, henv],
        by simp [textContent, responseTypes], rfl, rfl, le_refl _⟩
  | failure =>
      exact ⟨bumpLlm s, errorContent,
        by simp [processMessage, h, henv],
        by simp [errorContent, responseTypes], rfl, rfl, le_refl _⟩
  | vocabulary =>
      cases hv : env.vocab with
      | suggestion text w t e =>
          exact ⟨bumpLlm (bumpLlm s), wordSuggestionContent text w t e,
            by simp [processMessage, h, henv, hv],
            by simp [wordSuggestionContent, responseTypes], rfl, rfl, le_refl _⟩
      | failure =>
          exact ⟨bumpLlm (bumpLlm s), errorContent,
            by simp [processMessage, h, henv, hv],
            by simp [errorContent, responseTypes], rfl, rfl, le_refl _⟩
      | saveRequest w t e =>
          cases hsv : (save_word_pair (bumpLlm (bumpLlm s)) uid w t (some e) time).2 with
          | error pe =>
              exact ⟨(save_word_pair (bumpLlm (bumpLlm s)) uid w t (some e) time).1,
                errorContent,
                by simp [processMessage, h, henv, hv, hsv],
                by simp [errorContent, responseTypes],
                (save_word_pair_fst_frame (bumpLlm (bumpLlm s)) uid w t
                  (some e) time).1,
                (save_word_pair_fst_frame (bumpLlm (bumpLlm s)) uid w t
                  (some e) time).2.1,
                (save_word_pair_fst_frame (bumpLlm (bumpLlm s)) uid w t
                  (some e) time).2.2⟩
          | ok i =>
              exact ⟨(save_word_pair (bumpLlm (bumpLlm s)) uid w t (some e) time).1,
                saveConfirmationContent i w t e,
                by simp [processMessage, h, henv, hv, hsv],
                by simp [saveConfirmationContent, responseTypes],
                (save_word_pair_fst_frame (bumpLlm (bumpLlm s)) uid w t
                  (some e) time).1,
                (save_word_pair_fst_frame (bumpLlm (bumpLlm s)) uid w t
                  (some e) time).2.1,
                (save_word_pair_fst_frame (bumpLlm (bumpLlm s)) uid w t
                  (some e) time).2.2⟩

/-- C2: every assistant `Msg` the pipeline returns carries a
`TutorResponseContent` whose `response_type` lies in the closed four-value
set `{text, word_suggestion, save_confirmation, error}`. -/
theorem assistant_response_type_closed (env : LlmEnv) (s : Store) (uid : Nat)
    (chatId : Option Nat) (message : String) (time : Nat) (m : Msg)
    (h2 : (processMessage env s uid chatId message time).2 = Except.ok m) :
    ∃ c, m.role = "assistant" ∧ m.content = MsgContent.tutor c ∧
      c.response_type ∈ responseTypes := by
  by_cases h : strTrim message = ""
  · simp [processMessage, h] at h2
  · obtain ⟨s', c, hshape, hmem, hchats, hmsgs, hnext⟩ :=
      processMessage_ok_shape env s uid chatId message time h
    rw [hshape] at h2
    simp only [Except.ok.injEq] at h2
    obtain ⟨hrole, hcontent⟩ := persistTurn_snd s' uid chatId message c time
    exact ⟨c, by rw [← h2]; exact hrole, by rw [← h2]; exact hcontent, hmem⟩

/-- Witness for C2: a concrete pipeline run (translation route) returning a
message whose `response_type` is in the closed set. -/
theorem assistant_response_type_closed_witness :
    ∃ c, (persistTurn (bumpLlm (bumpLlm emptyStore)) 1 none "hola"
        (textContent "hello") 3).2.role = "assistant" ∧
      (persistTurn (bumpLlm (bumpLlm emptyStore)) 1 none "hola"
        (textContent "hello") 3).2.content = MsgContent.tutor c ∧
      c.response_type ∈ responseTypes :=
  assistant_response_type_closed
    { router := .translation, transReply := some "hello",
      generalReply := none, vocab := .failure }
    emptyStore 1 none "hola" 3
    (persistTurn (bumpLlm (bumpLlm emptyStore)) 1 none "hola"
      (textContent "hello") 3).2
    (by simp [processMessage, persistTurn, strTrim, trimChars])

/-- From `web/src/components/chat/chat-input.tsx` `handleSend`: trim the
draft; only when the trimmed text is non-empty and the input is not disabled
is `onSend(trimmed)` invoked. Returns the message handed to `onSend`, or
`none` when nothing is sent. -/
def handleSend (message : String) (disabled : Bool) : Option String :=
  let trimmed := strTrim message
  if trimmed ≠ "" ∧ disabled = false then some trimmed else none

/-- C3: an empty or whitespace-only message is never sent by the chat input,
and if it reaches the pipeline it is rejected with a `ValidationError`
before any LLM-dependent stage: the store (including the LLM call counter)
is untouched and the outcome does not depend on any router or specialist
behaviour. -/
theorem empty_message_rejected_before_llm (env : LlmEnv) (s : Store)
    (uid : Nat) (chatId : Option Nat) (message : String) (time : Nat)
    (d : Bool) (h : strTrim message = "") :
    handleSend message d = none ∧
    processMessage env s uid chatId message time
      = (s, Except.error PipelineError.validation) ∧
    (processMessage env s uid chatId message time).1.llmCalls = s.llmCalls := by
  refine ⟨?_, ?_, ?_⟩ <;> simp [handleSend, processMessage, h]

/-- Witness for C3 at the whitespace-only message `"   "`. -/
theorem empty_message_rejected_before_llm_witness :
    handleSend "   " false = none ∧
    processMessage
      { router := .general, transReply := none,
        generalReply := some "hi", vocab := .failure }
      emptyStore 1 none "   " 7
      = (emptyStore, Except.error PipelineError.validation) ∧
    (processMessage
      { router := .general, transReply := none,
        generalReply := some "hi", vocab := .failure }
      emptyStore 1 none "   " 7).1.llmCalls = emptyStore.llmCalls :=
  empty_message_rejected_before_llm _ emptyStore 1 none "   " 7 false
    (by decide)

/-- Resolving the chat never touches the `word_pairs` table. -/
theorem resolveChat_wordPairs (s : Store) (uid : Nat) (chatId : Option Nat)
    (time : Nat) :
    ((resolveChat s uid chatId time).1).wordPairs = s.wordPairs := by
  cases chatId <;> simp [resolveChat]

/-- Persisting a turn never touches the `word_pairs` table. -/
theorem persistTurn_wordPairs (s : Store) (uid : Nat) (chatId : Option Nat)
    (userText : String) (c : TutorResponseContent) (time : Nat) :
    ((persistTurn s uid chatId userText c time).1).wordPairs = s.wordPairs := by
  simp [persistTurn, resolveChat_wordPairs]

/-- C6: whenever the pipeline's assistant payload has `response_type`
`word_suggestion`, its `data` is present (word, translation and example all
populated) and its `tool_calls` sequence is empty, and no `word_pairs` row
was persisted by that run — the save is deferred to a later explicit save
request. -/
theorem word_suggestion_has_data_no_tool_no_save (env : LlmEnv) (s : Store)
    (uid : Nat) (chatId : Option Nat) (message : String) (time : Nat)
    (m : Msg) (c : TutorResponseContent)
    (h2 : (processMessage env s uid chatId message time).2 = Except.ok m)
    (hc : m.content = MsgContent.tutor c)
    (hw : c.response_type = "word_suggestion") :
    (∃ d : SuggestionData, c.data = some d) ∧ c.tool_calls = [] ∧
    (processMessage env s uid chatId message time).1.wordPairs
      = s.wordPairs := by
  by_cases h : strTrim message = ""
  · simp [processMessage, h] at h2
  · cases henv : env.router with
    | translation =>
        cases ht : env.transReply with
        | some t =>
            exfalso
            simp [processMessage, h, henv, ht] at h2
            subst h2
            rw [(persistTurn_snd _ _ _ _ _ _).2] at hc
            injection hc with h3
            subst h3
            simp [textContent] at hw
        | none =>
            exfalso
            simp [processMessage, h, henv, ht] at h2
            subst h2
            rw [(persistTurn_snd _ _ _ _ _ _).2] at hc
            injection hc with h3
            subst h3
            simp [errorContent] at hw
    | general =>
        cases hg : env.generalReply with
        | some t =>
            exfalso
            simp [processMessage, h, henv, hg] at h2
            subst h2
            rw [(persistTurn_snd _ _ _ _ _ _).2] at hc
            injection hc with h3
            subst h3
            simp [textContent] at hw
        | none =>
            exfalso
            simp [processMessage, h, henv, hg] at h2
            subst h2
            rw [(persistTurn_snd _ _ _ _ _ _).2] at hc
            injection hc with h3
            subst h3
            simp [errorContent] at hw
    | outOfDomain dec =>
        exfalso
        simp [processMessage, h, henv] at h2
        subst h2
        rw [(persistTurn_snd _ _ _ _ _ _).2] at hc
        injection hc with h3
        subst h3
        simp [textContent] at hw
    | failure =>
        exfalso
        simp [processMessage, h, henv] at h2
        subst h2
        rw [(persistTurn_snd _ _ _ _ _ _).2] at hc
        injection hc with h3
        subst h3
        simp [errorContent] at hw
    | vocabulary =>
        cases hv : env.vocab with
        | failure =>
            exfalso
            simp [processMessage, h, henv, hv] at h2
            subst h2
            rw [(persistTurn_snd _ _ _ _ _ _).2] at hc
            injection hc with h3
            subst h3
            simp [errorContent] at hw
        | suggestion text w t e =>
            simp [processMessage, h, henv, hv] at h2
            subst h2
            rw [(persistTurn_snd _ _ _ _ _ _).2] at hc
            injection hc with h3
            subst h3
            refine ⟨⟨_, rfl⟩, rfl, ?_⟩
            simp [processMessage, h, henv, hv, persistTurn_wordPairs, bumpLlm]
        | saveRequest w t e =>
            cases hsv : (save_word_pair (bumpLlm (bumpLlm s)) uid w t
                (some e) time).2 with
            | error pe =>
                exfalso
                simp [processMessage, h, henv, hv, hsv] at h2
                subst h2
                rw [(persistTurn_snd _ _ _ _ _ _).2] at hc
                injection hc with h3
                subst h3
                simp [errorContent] at hw
            | ok i =>
                exfalso
                simp [processMessage, h, henv, hv, hsv] at h2
                subst h2
                rw [(persistTurn_snd _ _ _ _ _ _).2] at hc
                injection hc with h3
                subst h3
                simp [saveConfirmationContent] at hw

/-- Witness for C6: a concrete vocabulary-suggestion run. -/
theorem word_suggestion_has_data_no_tool_no_save_witness :
    (∃ d : SuggestionData,
      (wordSuggestionContent "Try this word!" "kot" "cat"
        "Kot siedzi.").data = some d) ∧
    (wordSuggestionContent "Try this word!" "kot" "cat"
      "Kot siedzi.").tool_calls = [] ∧
    (processMessage
      { router := .vocabulary, transReply := none, generalReply := none,
        vocab := .suggestion "Try this word!" "kot" "cat" "Kot siedzi." }
      emptyStore 1 none "what is cat in polish?" 9).1.wordPairs
      = emptyStore.wordPairs :=
  word_suggestion_has_data_no_tool_no_save
    { router := .vocabulary, transReply := none, generalReply := none,
      vocab := .suggestion "Try this word!" "kot" "cat" "Kot siedzi." }
    emptyStore 1 none "what is cat in polish?" 9
    (persistTurn (bumpLlm (bumpLlm emptyStore)) 1 none
      "what is cat in polish?"
      (wordSuggestionContent "Try this word!" "kot" "cat" "Kot siedzi.") 9).2
    (wordSuggestionContent "Try this word!" "kot" "cat" "Kot siedzi.")
    (by simp [processMessage, strTrim, trimChars])
    (by simp [persistTurn])
    rfl

/-- SQL commands a row-level-security policy can grant. -/
inductive SqlCmd where
  | select
  | insert
  | update
  | delete
  deriving Repr, DecidableEq

/-- The RLS policies declared on `public.chat_messages` in the migration:
select ("Users can view messages in their chats") and insert ("Users can
insert messages in their chats") only — no update and no delete policy. -/
def chatMessagesPolicies : List SqlCmd := [.select, .insert]

/-- The RLS policies declared on `public.chats` in the migration: all four
commands. -/
def chatsPolicies : List SqlCmd := [.select, .insert, .update, .delete]

/-- The write operations storage can perform on the chat tables: exactly
those granted by the migration's policies (insert/update/delete on `chats`,
insert on `chat_messages`) plus the `on delete cascade` effect of deleting
a chat. There is no message-update and no direct message-delete operation,
mirroring the absence of such policies. -/
inductive DbOp where
  | insertChat (uid : Nat) (title : Option String) (time : Nat)
  | updateChat (cid : Nat) (title : Option String) (time : Nat)
  | deleteChat (cid : Nat)
  | insertMessage (cid : Nat) (role : String) (content : MsgContent)
      (time : Nat)
  deriving Repr, DecidableEq

/-- Semantics of the chat-table operations over the store. Inserts append a
fresh row; `deleteChat` removes the chat row and — via the migration's
`chat_id ... on delete cascade` — every message of that chat. -/
def applyOp (op : DbOp) (d : Store) : Store :=
  match op with
  | .insertChat uid title time =>
      { d with
        chats := d.chats ++ [{ id := d.nextId, user_id := uid, title := title,
                               created_at := time, updated_at := time }],
        nextId := d.nextId + 1 }
  | .updateChat cid title time =>
      { d with
        chats := d.chats.map (fun c =>
          if c.id == cid then { c with title := title, updated_at := time }
          else c) }
  | .deleteChat cid =>
      { d with chats := d.chats.filter (fun c => c.id != cid),
               messages := d.messages.filter (fun m => m.chat_id != cid) }
  | .insertMessage cid role content time =>
      { d with
        messages := d.messages ++ [{ id := d.nextId, chat_id := cid,
                                     role := role, content := content,
                                     created_at := time, seq := d.nextSeq }],
        nextId := d.nextId + 1, nextSeq := d.nextSeq + 1 }

/-- The display order of messages within a chat: by creation timestamp,
ties broken by insertion order (the `seq` field). -/
def msgLe (a b : Msg) : Prop :=
  a.created_at < b.created_at ∨
    (a.created_at = b.created_at ∧ a.seq ≤ b.seq)

instance : DecidableRel msgLe := fun a b => by
  unfold msgLe
  infer_instance

instance : IsTotal Msg msgLe :=
  ⟨by intro a b; unfold msgLe; omega⟩

instance : IsTrans Msg msgLe :=
  ⟨by intro a b c; unfold msgLe; omega⟩

/-- Modelled from the spec (§6: `GET /api/chats/:id/messages` returns the
chat's messages ordered by `created_at` ascending — the Flask handler is
not in the source tree; the supporting index is
`idx_chat_messages_chat_id_created_at`): the chat's messages sorted by
creation time, ties broken by insertion order. -/
def fetchMessages (d : Store) (cid : Nat) : List Msg :=
  List.insertionSort msgLe (d.messages.filter (fun m => m.chat_id == cid))

/-- C4: the message store is an append-only log. The migration grants no
update and no delete policy on `chat_messages`; under every permitted
operation an existing message row survives unchanged unless its parent chat
is deleted (cascade), new rows only ever appear appended at the end, and the
fetch order is by creation timestamp with ties broken by insertion order. -/
theorem messages_append_only (op : DbOp) (d : Store) (cid : Nat) :
    SqlCmd.update ∉ chatMessagesPolicies ∧
    SqlCmd.delete ∉ chatMessagesPolicies ∧
    (∀ m ∈ (applyOp op d).messages,
      m ∈ d.messages ∨ (applyOp op d).messages = d.messages ++ [m]) ∧
    (∀ m ∈ d.messages, m ∉ (applyOp op d).messages →
      ∃ c, op = DbOp.deleteChat c ∧ m.chat_id = c) ∧
    List.Sorted msgLe (fetchMessages d cid) ∧
    List.Perm (fetchMessages d cid)
      (d.messages.filter (fun m => m.chat_id == cid)) := by
  refine ⟨by decide, by decide, ?_, ?_, ?_, ?_⟩
  · intro m hm
    cases op with
    | insertChat uid title time =>
        exact Or.inl (by simpa [applyOp] using hm)
    | updateChat c title time =>
        exact Or.inl (by simpa [applyOp] using hm)
    | deleteChat c =>
        have hm2 : m ∈ d.messages ∧ ¬m.chat_id = c := by
          simpa [applyOp, List.mem_filter] using hm
        exact Or.inl hm2.1
    | insertMessage c role content time =>
        simp only [applyOp, List.mem_append, List.mem_singleton] at hm
        rcases hm with hm | rfl
        · exact Or.inl hm
        · exact Or.inr (by simp [applyOp])
  · intro m hm hnot
    cases op with
    | insertChat uid title time =>
        exact absurd (by simpa [applyOp] using hm) hnot
    | updateChat c title time =>
        exact absurd (by simpa [applyOp] using hm) hnot
    | insertMessage c role content time =>
        exact absurd (by simp [applyOp, List.mem_append, hm]) hnot
    | deleteChat c =>
        refine ⟨c, rfl, ?_⟩
        by_contra hne
        exact hnot (by simp [applyOp, List.mem_filter, hm, hne])
  · exact List.sorted_insertionSort msgLe _
  · exact List.perm_insertionSort msgLe _

/-- The chat identifiers present in the store. -/
def chatIds (d : Store) : List Nat := d.chats.map Chat.id

/-- Modelled from the spec (§6: `DELETE /api/chats/:id` → 204; the Flask
handler is not in the source tree). The delete statement runs under the
RLS policy "Users can delete their own chats" — it only removes a chat row
whose `user_id` is the caller — and the migration's `on delete cascade`
removes that chat's messages. Returns the store and the HTTP status. -/
def deleteChatEndpoint (d : Store) (uid cid : Nat) : Store × Nat :=
  if d.chats.any (fun c => c.id == cid && c.user_id == uid) then
    ({ d with
       chats := d.chats.filter (fun c => !(c.id == cid && c.user_id == uid)),
       messages := d.messages.filter (fun m => m.chat_id != cid) }, 204)
  else (d, 404)

/-- C7: deleting a chat the caller owns answers 204, removes the chat and
(by cascade) every message of that chat, and leaves every other chat, every
message of other chats, and the word-pair table untouched. Chat identifiers
are primary keys, hence the `Nodup` hypothesis. -/
theorem delete_chat_cascades (d : Store) (uid cid : Nat)
    (hnodup : (chatIds d).Nodup)
    (hown : ∃ c ∈ d.chats, c.id = cid ∧ c.user_id = uid) :
    (deleteChatEndpoint d uid cid).2 = 204 ∧
    (∀ m ∈ (deleteChatEndpoint d uid cid).1.messages, m.chat_id ≠ cid) ∧
    (∀ c ∈ (deleteChatEndpoint d uid cid).1.chats, c.id ≠ cid) ∧
    (∀ m ∈ d.messages, m.chat_id ≠ cid →
      m ∈ (deleteChatEndpoint d uid cid).1.messages) ∧
    (∀ c ∈ d.chats, c.id ≠ cid →
      c ∈ (deleteChatEndpoint d uid cid).1.chats) ∧
    (deleteChatEndpoint d uid cid).1.wordPairs = d.wordPairs := by
  obtain ⟨c0, hc0mem, hc0id, hc0uid⟩ := hown
  have hany : d.chats.any (fun c => c.id == cid && c.user_id == uid) = true :=
    List.any_eq_true.mpr ⟨c0, hc0mem, by simp [hc0id, hc0uid]⟩
  refine ⟨by simp [deleteChatEndpoint, hany], ?_, ?_, ?_, ?_,
    by simp [deleteChatEndpoint, hany]⟩
  · intro m hm
    simp only [deleteChatEndpoint, hany, if_true, List.mem_filter] at hm
    simpa using hm.2
  · intro c hc
    simp only [deleteChatEndpoint, hany, if_true, List.mem_filter] at hc
    intro hid
    have hceq : c = c0 :=
      List.inj_on_of_nodup_map hnodup hc.1 hc0mem (by rw [hid, hc0id])
    rw [hceq] at hc
    simp [hc0id, hc0uid] at hc
  · intro m hm hne
    simp [deleteChatEndpoint, hany, List.mem_filter, hm, hne]
  · intro c hc hne
    simp [deleteChatEndpoint, hany, List.mem_filter, hc, hne]

/-- A concrete store: chat 5 of user 1 holding message 0, chat 6 of user 2
holding message 1. -/
def sampleDb : Store :=
  { chats := [{ id := 5, user_id := 1, title := none, created_at := 0,
                updated_at := 0 },
              { id := 6, user_id := 2, title := none, created_at := 0,
                updated_at := 0 }],
    messages := [{ id := 0, chat_id := 5, role := "user",
                   content := .user "hi", created_at := 1, seq := 0 },
                 { id := 1, chat_id := 6, role := "user",
                   content := .user "yo", created_at := 2, seq := 1 }],
    wordPairs := [], nextId := 7, nextSeq := 2, llmCalls := 0 }

/-- Witness for C7: user 1 deletes chat 5; its message goes with it while
chat 6 of user 2 and its message survive. -/
theorem delete_chat_cascades_witness :
    (deleteChatEndpoint sampleDb 1 5).2 = 204 ∧
    (∀ m ∈ (deleteChatEndpoint sampleDb 1 5).1.messages, m.chat_id ≠ 5) ∧
    (∀ c ∈ (deleteChatEndpoint sampleDb 1 5).1.chats, c.id ≠ 5) ∧
    (∀ m ∈ sampleDb.messages, m.chat_id ≠ 5 →
      m ∈ (deleteChatEndpoint sampleDb 1 5).1.messages) ∧
    (∀ c ∈ sampleDb.chats, c.id ≠ 5 →
      c ∈ (deleteChatEndpoint sampleDb 1 5).1.chats) ∧
    (deleteChatEndpoint sampleDb 1 5).1.wordPairs = sampleDb.wordPairs :=
  delete_chat_cascades sampleDb 1 5 (by decide)
    ⟨{ id := 5, user_id := 1, title := none, created_at := 0,
       updated_at := 0 }, by simp [sampleDb], rfl, rfl⟩

/-- The assistant message returned by `persistTurn` is among the stored
messages of the resulting store. -/
theorem persistTurn_mem (s : Store) (uid : Nat) (chatId : Option Nat)
    (userText : String) (c : TutorResponseContent) (time : Nat) :
    (persistTurn s uid chatId userText c time).2
      ∈ ((persistTurn s uid chatId userText c time).1).messages := by
  simp [persistTurn]

/-- C5: persist-then-fetch is the identity on the assistant content: the
message returned synchronously by a `POST /api/chat/message` pipeline run
appears in a subsequent `GET /api/chats/:id/messages` fetch of its chat
with the same identifier and an identical content payload. -/
theorem post_then_get_roundtrip (env : LlmEnv) (s : Store) (uid : Nat)
    (chatId : Option Nat) (message : String) (time : Nat) (m : Msg)
    (h2 : (processMessage env s uid chatId message time).2 = Except.ok m) :
    ∃ mm ∈ fetchMessages (processMessage env s uid chatId message time).1
        m.chat_id, mm.id = m.id ∧ mm.content = m.content := by
  by_cases h : strTrim message = ""
  · simp [processMessage, h] at h2
  · obtain ⟨s', c, hshape, hmem, hchats, hmsgs, hnext⟩ :=
      processMessage_ok_shape env s uid chatId message time h
    rw [hshape] at h2 ⊢
    simp only [Except.ok.injEq] at h2
    subst h2
    refine ⟨(persistTurn s' uid chatId message c time).2, ?_, rfl, rfl⟩
    unfold fetchMessages
    rw [List.Perm.mem_iff (List.perm_insertionSort msgLe _)]
    exact List.mem_filter.mpr
      ⟨persistTurn_mem s' uid chatId message c time, by simp⟩

/-- Witness for C5: a concrete translation run whose returned message is
found again, content-identical, by the fetch. -/
theorem post_then_get_roundtrip_witness :
    ∃ mm ∈ fetchMessages
        (processMessage
          { router := .translation, transReply := some "hello",
            generalReply := none, vocab := .failure }
          emptyStore 1 none "hola" 3).1
        (persistTurn (bumpLlm (bumpLlm emptyStore)) 1 none "hola"
          (textContent "hello") 3).2.chat_id,
      mm.id = (persistTurn (bumpLlm (bumpLlm emptyStore)) 1 none "hola"
        (textContent "hello") 3).2.id ∧
      mm.content = (persistTurn (bumpLlm (bumpLlm emptyStore)) 1 none "hola"
        (textContent "hello") 3).2.content :=
  post_then_get_roundtrip
    { router := .translation, transReply := some "hello",
      generalReply := none, vocab := .failure }
    emptyStore 1 none "hola" 3
    (persistTurn (bumpLlm (bumpLlm emptyStore)) 1 none "hola"
      (textContent "hello") 3).2
    (by simp [processMessage, strTrim, trimChars])

/-- From `word-suggestion-card.tsx` (`WordSuggestionCard.handleSave`): the
text of the follow-up chat message that requests the save. -/
def saveRequestMessage (word translation ex : String) : String :=
  "Save \"" ++ word ++ "\" → \"" ++ translation
    ++ "\" to my list. Example: " ++ ex

/-- From `word-suggestion-card.tsx` (`WordSuggestionCard.handleSave`): if a
save already succeeded or one is in flight, nothing happens; otherwise
`sendChatMessage(null, ...)` is called — the chat identifier sent is null.
Returns the (chat identifier, message) request handed to `sendChatMessage`,
or `none` when no request is made. -/
def handleSave (word translation ex : String) (saved saving : Bool) :
    Option (Option Nat × String) :=
  if saved || saving then none
  else some (none, saveRequestMessage word translation ex)

/-- With a null chat identifier `persistTurn` creates one fresh chat and
attaches the turn to it. -/
theorem persistTurn_chats_none (s : Store) (uid : Nat) (userText : String)
    (c : TutorResponseContent) (time : Nat) :
    ((persistTurn s uid none userText c time).1).chats
      = s.chats ++ [{ id := s.nextId, user_id := uid, title := none,
                      created_at := time, updated_at := time }] ∧
    ((persistTurn s uid none userText c time).2).chat_id = s.nextId := by
  simp [persistTurn, resolveChat]

/-- C9: a confirmed word-suggestion save sends the follow-up save-request
message with a null chat identifier, so the pipeline run it triggers
creates one new chat — the returned confirmation lives in a chat whose
identifier is not any existing chat's — rather than appending to the
conversation in which the suggestion appeared. -/
theorem confirmed_save_starts_new_chat (word translation ex : String)
    (env : LlmEnv) (s : Store) (uid : Nat) (time : Nat)
    (hmsg : ¬strTrim (saveRequestMessage word translation ex) = "")
    (hfresh : ∀ ch ∈ s.chats, ch.id < s.nextId) :
    handleSave word translation ex false false
      = some (none, saveRequestMessage word translation ex) ∧
    ((processMessage env s uid none (saveRequestMessage word translation ex)
        time).1).chats.length = s.chats.length + 1 ∧
    (∀ m, (processMessage env s uid none
        (saveRequestMessage word translation ex) time).2 = Except.ok m →
      m.chat_id ∉ chatIds s) := by
  obtain ⟨s', c, hshape, hmem, hchats, hmsgs, hnext⟩ :=
    processMessage_ok_shape env s uid none
      (saveRequestMessage word translation ex) time hmsg
  refine ⟨by simp [handleSave], ?_, ?_⟩
  · rw [hshape]
    rw [(persistTurn_chats_none s' uid
      (saveRequestMessage word translation ex) c time).1, hchats]
    simp
  · intro m hm
    rw [hshape] at hm
    simp only [Except.ok.injEq] at hm
    subst hm
    rw [(persistTurn_chats_none s' uid
      (saveRequestMessage word translation ex) c time).2]
    intro hmem2
    obtain ⟨ch, hchmem, hchid⟩ := List.mem_map.mp hmem2
    have := hfresh ch hchmem
    omega

/-- Witness for C9 at a concrete suggestion ("kot" → "cat") and a store
holding one existing chat. -/
theorem confirmed_save_starts_new_chat_witness :
    handleSave "kot" "cat" "Kot siedzi." false false
      = some (none, saveRequestMessage "kot" "cat" "Kot siedzi.") ∧
    ((processMessage
        { router := .vocabulary, transReply := none, generalReply := none,
          vocab := .saveRequest "kot" "cat" "Kot siedzi." }
        sampleDb 1 none (saveRequestMessage "kot" "cat" "Kot siedzi.")
        9).1).chats.length = sampleDb.chats.length + 1 ∧
    (∀ m, (processMessage
        { router := .vocabulary, transReply := none, generalReply := none,
          vocab := .saveRequest "kot" "cat" "Kot siedzi." }
        sampleDb 1 none (saveRequestMessage "kot" "cat" "Kot siedzi.")
        9).2 = Except.ok m →
      m.chat_id ∉ chatIds sampleDb) :=
  confirmed_save_starts_new_chat "kot" "cat" "Kot siedzi."
    { router := .vocabulary, transReply := none, generalReply := none,
      vocab := .saveRequest "kot" "cat" "Kot siedzi." }
    sampleDb 1 9 (by decide) (by decide)

/-- The `ChatMessage` record as the client handles it (`ai-service.ts`): string
identifiers and an ISO timestamp string, exactly as delivered by the API. -/
structure ClientMsg where
  id : String
  chat_id : String
  role : String
  content : MsgContent
  created_at : String
  deriving Repr, DecidableEq

/-- From the `useChat` hook (`sendMessage`): the user message appended
optimistically before the request is sent — a temporary identifier built
from the current epoch milliseconds, the current chat's id (or the empty
string when there is none), role `user`, plain content, and the current
ISO timestamp. -/
def optimisticUserMessage (currentChatId : Option String) (message : String)
    (nowMs : Nat) (nowIso : String) : ClientMsg :=
  { id := "temp-" ++ toString nowMs,
    chat_id := (match currentChatId with | some cid => cid | none => ""),
    role := "user", content := .user message, created_at := nowIso }

/-- From the `useChat` hook (`sendMessage`): if a send is already in flight
the call returns immediately; otherwise the user message is appended
optimistically, then `sendChatMessage` runs — on failure the error is
logged and rethrown with no rollback of the optimistic append; on success
the assistant response is appended after the user message. `result` is the
outcome of the awaited `sendChatMessage` call; the function returns the
final message list and `none` for the early return, `some (error e)` for
the rethrow, or `some (ok resp)` for the returned response. -/
def clientSendMessage (messages : List ClientMsg) (sending : Bool)
    (currentChatId : Option String) (message : String) (nowMs : Nat)
    (nowIso : String) (result : Except String ClientMsg) :
    List ClientMsg × Option (Except String ClientMsg) :=
  if sending then (messages, none)
  else
    let um := optimisticUserMessage currentChatId message nowMs nowIso
    match result with
    | .error e => (messages ++ [um], some (.error e))
    | .ok resp => (messages ++ [um, resp], some (.ok resp))

/-- C10: when the `POST /api/chat/message` call fails, `sendMessage`
rethrows the error but keeps the optimistic user message in the local list
(the list grows by exactly one, and any assistant message present was
already there before); on success the list grows by exactly two — the user
turn, then the assistant turn. -/
theorem send_message_optimistic_no_rollback (messages : List ClientMsg)
    (currentChatId : Option String) (message : String) (nowMs : Nat)
    (nowIso : String) (e : String) (resp : ClientMsg) :
    clientSendMessage messages false currentChatId message nowMs nowIso
        (Except.error e)
      = (messages
          ++ [optimisticUserMessage currentChatId message nowMs nowIso],
         some (Except.error e)) ∧
    (clientSendMessage messages false currentChatId message nowMs nowIso
        (Except.error e)).1.length = messages.length + 1 ∧
    (∀ m ∈ (clientSendMessage messages false currentChatId message nowMs
        nowIso (Except.error e)).1,
      m.role = "assistant" → m ∈ messages) ∧
    clientSendMessage messages false currentChatId message nowMs nowIso
        (Except.ok resp)
      = (messages
          ++ [optimisticUserMessage currentChatId message nowMs nowIso,
              resp],
         some (Except.ok resp)) ∧
    (clientSendMessage messages false currentChatId message nowMs nowIso
        (Except.ok resp)).1.length = messages.length + 2 := by
  refine ⟨rfl, by simp [clientSendMessage], ?_, rfl,
    by simp [clientSendMessage]⟩
  intro m hm hrole
  simp only [clientSendMessage, if_neg Bool.false_ne_true, List.mem_append,
    List.mem_singleton] at hm
  rcases hm with hm | rfl
  · exact hm
  · simp [optimisticUserMessage] at hrole

/-- A row of `public.pronunciation_tips_cache` (migration
`20260215000000_create_pronunciation_tips_cache.sql`), which carries
`unique(user_id, word)`. -/
structure CacheEntry where
  id : Nat
  user_id : Nat
  word : String
  phonetic_transcription : String
  syllables : List String
  pronunciation_tips : List String
  memory_aids : List String
  common_mistakes : List String
  created_at : Nat
  updated_at : Nat
  deriving Repr, DecidableEq

/-- The tip fields carried by a `PronunciationTipsResponse`
(`ai-service.ts`) and passed to the cache mutation. -/
structure TipsData where
  phonetic_transcription : String
  syllables : List String
  pronunciation_tips : List String
  memory_aids : List String
  common_mistakes : List String
  deriving Repr, DecidableEq

/-- The cache key from the migration's `unique(user_id, word)`. -/
def cacheKeyMatches (uid : Nat) (w : String) (e : CacheEntry) : Bool :=
  e.user_id == uid && e.word == w

/-- From `use-pronunciation-cache.ts` (the query): select the cache entry
for the word — row-level security scopes the select to the caller, so the
effective key is (user, word). -/
def lookupCache (cache : List CacheEntry) (uid : Nat) (w : String) :
    Option CacheEntry :=
  cache.find? (cacheKeyMatches uid w)

/-- The row update performed by an upsert that hits an existing
(user, word) row: replace the tip fields and the `updated_at` timestamp
(the migration's trigger), keep identifier and key. -/
def applyTips (uid : Nat) (w : String) (d : TipsData) (time : Nat)
    (e : CacheEntry) : CacheEntry :=
  if cacheKeyMatches uid w e then
    { e with phonetic_transcription := d.phonetic_transcription,
             syllables := d.syllables,
             pronunciation_tips := d.pronunciation_tips,
             memory_aids := d.memory_aids,
             common_mistakes := d.common_mistakes,
             updated_at := time }
  else e

/-- The fresh row inserted when an upsert finds no (user, word) row. -/
def freshCacheEntry (nextId uid : Nat) (w : String) (d : TipsData)
    (time : Nat) : CacheEntry :=
  { id := nextId, user_id := uid, word := w,
    phonetic_transcription := d.phonetic_transcription,
    syllables := d.syllables,
    pronunciation_tips := d.pronunciation_tips,
    memory_aids := d.memory_aids,
    common_mistakes := d.common_mistakes,
    created_at := time, updated_at := time }

/-- From `use-pronunciation-cache.ts` (`saveToCache`): upsert with
`onConflict: 'user_id,word'` — update the existing (user, word) row if one
exists, insert a fresh row otherwise. Returns the cache and the id
counter. -/
def saveToCache (cache : List CacheEntry) (nextId uid : Nat) (w : String)
    (d : TipsData) (time : Nat) : List CacheEntry × Nat :=
  match cache.find? (cacheKeyMatches uid w) with
  | some _ => (cache.map (applyTips uid w d time), nextId)
  | none => (cache ++ [freshCacheEntry nextId uid w d time], nextId + 1)

/-- From `PronunciationTipsModal` (auto-fetch effect): when the modal opens
with a cache hit the cached entry is displayed and no generation request is
made; on a miss one generation call runs and, unless the backend flagged
the result as already cached server-side, the result is saved through
`saveToCache`. Returns ((cache, id counter), generation calls made). -/
def modalAutoFetch (cache : List CacheEntry) (nextId uid : Nat)
    (w : String) (genResult : TipsData) (genCached : Bool) (time : Nat) :
    (List CacheEntry × Nat) × Nat :=
  match lookupCache cache uid w with
  | some _ => ((cache, nextId), 0)
  | none =>
      if genCached then ((cache, nextId), 1)
      else (saveToCache cache nextId uid w genResult time, 1)

/-- The invariant enforced by `unique(user_id, word)`: at most one cache
row per key. -/
def UniqueCacheKeys (cache : List CacheEntry) : Prop :=
  ∀ uid w, cache.countP (cacheKeyMatches uid w) ≤ 1

/-- The upsert's update function never changes a row's key. -/
theorem cacheKeyMatches_applyTips (uid1 : Nat) (w1 : String) (uid : Nat)
    (w : String) (d : TipsData) (time : Nat) (e : CacheEntry) :
    cacheKeyMatches uid1 w1 (applyTips uid w d time e)
      = cacheKeyMatches uid1 w1 e := by
  unfold applyTips
  split <;> rfl

/-- When the upsert finds an existing (user, word) row it updates in place:
the row count is unchanged. -/
theorem saveToCache_length_of_find_some (cache : List CacheEntry)
    (nextId uid : Nat) (w : String) (d : TipsData) (time : Nat)
    (q : CacheEntry) (h : cache.find? (cacheKeyMatches uid w) = some q) :
    ((saveToCache cache nextId uid w d time).1).length = cache.length := by
  simp only [saveToCache, h, List.length_map]

/-- After a save, a row with the saved key is present. -/
theorem saveToCache_key_present (cache : List CacheEntry) (nextId uid : Nat)
    (w : String) (d : TipsData) (time : Nat) :
    ∃ x ∈ (saveToCache cache nextId uid w d time).1,
      cacheKeyMatches uid w x = true := by
  cases hf : cache.find? (cacheKeyMatches uid w) with
  | some p =>
      refine ⟨applyTips uid w d time p, ?_, ?_⟩
      · simp only [saveToCache, hf]
        exact List.mem_map_of_mem _ (List.mem_of_find?_eq_some hf)
      · rw [cacheKeyMatches_applyTips]
        exact List.find?_some hf
  | none =>
      refine ⟨freshCacheEntry nextId uid w d time, ?_, ?_⟩
      · simp only [saveToCache, hf]
        exact List.mem_append_right _ (List.mem_singleton.mpr rfl)
      · simp [cacheKeyMatches, freshCacheEntry]

/-- C8: the pronunciation-tips cache is a read-through cache keyed by
(user, word): a hit returns the cached entry with zero generation calls
and no cache change; a miss generates once and upserts under the key; the
upsert preserves the at-most-one-row-per-key invariant; and repeating a
save for the same key updates the existing row rather than adding one. -/
theorem pronunciation_cache_read_through (cache : List CacheEntry)
    (nextId uid : Nat) (w : String) (d d2 : TipsData) (gc : Bool)
    (t t2 : Nat) (huniq : UniqueCacheKeys cache) :
    (∀ e, lookupCache cache uid w = some e →
      modalAutoFetch cache nextId uid w d gc t = ((cache, nextId), 0)) ∧
    (lookupCache cache uid w = none → gc = false →
      modalAutoFetch cache nextId uid w d gc t
        = (saveToCache cache nextId uid w d t, 1)) ∧
    UniqueCacheKeys (saveToCache cache nextId uid w d t).1 ∧
    ((saveToCache (saveToCache cache nextId uid w d t).1
        (saveToCache cache nextId uid w d t).2 uid w d2 t2).1).length
      = ((saveToCache cache nextId uid w d t).1).length := by
  refine ⟨?_, ?_, ?_, ?_⟩
  · intro e he
    simp [modalAutoFetch, he]
  · intro h1 h2
    simp [modalAutoFetch, h1, h2]
  · intro uid1 w1
    cases hf : cache.find? (cacheKeyMatches uid w) with
    | some p =>
        simp only [saveToCache, hf]
        rw [List.countP_map]
        calc cache.countP (cacheKeyMatches uid1 w1 ∘ applyTips uid w d t)
            = cache.countP (cacheKeyMatches uid1 w1) :=
              List.countP_congr (fun e _ => by
                simp [Function.comp, cacheKeyMatches_applyTips])
          _ ≤ 1 := huniq uid1 w1
    | none =>
        simp only [saveToCache, hf]
        rw [List.countP_append]
        cases hb : cacheKeyMatches uid1 w1 (freshCacheEntry nextId uid w d t) with
        | false =>
            have h1 : List.countP (cacheKeyMatches uid1 w1)
                [freshCacheEntry nextId uid w d t] = 0 := by
              simp [List.countP_cons, hb]
            rw [h1]
            have := huniq uid1 w1
            omega
        | true =>
            have hkey : uid = uid1 ∧ w = w1 := by
              simpa [cacheKeyMatches, freshCacheEntry] using hb
            obtain ⟨rfl, rfl⟩ := hkey
            have h0 : cache.countP (cacheKeyMatches uid w) = 0 :=
              List.countP_eq_zero.mpr (List.find?_eq_none.mp hf)
            have h1 : List.countP (cacheKeyMatches uid w)
                [freshCacheEntry nextId uid w d t] = 1 := by
              simp [List.countP_cons, hb]
            rw [h0, h1]
  · obtain ⟨x, hxmem, hxkey⟩ :=
      saveToCache_key_present cache nextId uid w d t
    cases hf2 : (saveToCache cache nextId uid w d t).1.find?
        (cacheKeyMatches uid w) with
    | none =>
        have hx := List.find?_eq_none.mp hf2 x hxmem
        rw [hxkey] at hx
        exact absurd rfl hx
    | some q =>
        exact saveToCache_length_of_find_some
          (saveToCache cache nextId uid w d t).1
          (saveToCache cache nextId uid w d t).2 uid w d2 t2 q hf2

/-- Witness for C8 at a concrete input: one save into the empty cache,
then a repeat save for the same (user, word). -/
theorem pronunciation_cache_read_through_witness :
    (∀ e, lookupCache [] 1 "kot" = some e →
      modalAutoFetch [] 0 1 "kot"
        { phonetic_transcription := "kot", syllables := ["kot"],
          pronunciation_tips := [], memory_aids := [],
          common_mistakes := [] } false 4 = (([], 0), 0)) ∧
    (lookupCache [] 1 "kot" = none → false = false →
      modalAutoFetch [] 0 1 "kot"
        { phonetic_transcription := "kot", syllables := ["kot"],
          pronunciation_tips := [], memory_aids := [],
          common_mistakes := [] } false 4
        = (saveToCache [] 0 1 "kot"
            { phonetic_transcription := "kot", syllables := ["kot"],
              pronunciation_tips := [], memory_aids := [],
              common_mistakes := [] } 4, 1)) ∧
    UniqueCacheKeys (saveToCache [] 0 1 "kot"
      { phonetic_transcription := "kot", syllables := ["kot"],
        pronunciation_tips := [], memory_aids := [],
        common_mistakes := [] } 4).1 ∧
    ((saveToCache (saveToCache [] 0 1 "kot"
        { phonetic_transcription := "kot", syllables := ["kot"],
          pronunciation_tips := [], memory_aids := [],
          common_mistakes := [] } 4).1
        (saveToCache [] 0 1 "kot"
          { phonetic_transcription := "kot", syllables := ["kot"],
            pronunciation_tips := [], memory_aids := [],
            common_mistakes := [] } 4).2 1 "kot"
        { phonetic_transcription := "kot2", syllables := ["kot"],
          pronunciation_tips := [], memory_aids := [],
          common_mistakes := [] } 9).1).length
      = ((saveToCache [] 0 1 "kot"
          { phonetic_transcription := "kot", syllables := ["kot"],
            pronunciation_tips := [], memory_aids := [],
            common_mistakes := [] } 4).1).length :=
  pronunciation_cache_read_through [] 0 1 "kot"
    { phonetic_transcription := "kot", syllables := ["kot"],
      pronunciation_tips := [], memory_aids := [], common_mistakes := [] }
    { phonetic_transcription := "kot2", syllables := ["kot"],
      pronunciation_tips := [], memory_aids := [], common_mistakes := [] }
    false 4 9 (by intro uid w; simp)

/-- A key that `find?` locates is counted exactly once in a store satisfying
the uniqueness constraint. -/
theorem countKey_eq_one_of_find (l : List WordPair) (uid : Nat) (sw tw : String)
    (p : WordPair) (hfind : l.find? (keyMatches uid sw tw) = some p)
    (huniq : UniqueWordPairKeys l) : countKey l uid sw tw = 1 := by
  have hp : keyMatches uid sw tw p = true := List.find?_some hfind
  have hmem : p ∈ l := List.mem_of_find?_eq_some hfind
  have hpos : 0 < l.countP (keyMatches uid sw tw) :=
    List.countP_pos_iff.mpr ⟨p, hmem, hp⟩
  have hle := huniq uid sw tw
  unfold countKey at hle ⊢
  omega

/-- A key that `find?` misses is counted zero times. -/
theorem countKey_eq_zero_of_find_none (l : List WordPair) (uid : Nat)
    (sw tw : String) (hfind : l.find? (keyMatches uid sw tw) = none) :
    countKey l uid sw tw = 0 := by
  unfold countKey
  exact List.countP_eq_zero.mpr (List.find?_eq_none.mp hfind)

/-- A freshly built row matches its own natural key. -/
theorem keyMatches_self (uid : Nat) (sw tw : String) (ctx : Option String)
    (i t : Nat) :
    keyMatches uid sw tw
      { id := i, user_id := uid, source_word := sw, translated_word := tw,
        context_sentence := ctx, created_at := t } = true := by
  simp [keyMatches]

/-- The empty word-pair table trivially satisfies the uniqueness constraint. -/
theorem uniqueWordPairKeys_nil : UniqueWordPairKeys ([] : List WordPair) := by
  intro uid sw tw
  simp [countKey]

/-- C1: saving the same (owner, source word, translated word) twice through
`save_word_pair` leaves exactly one matching `word_pairs` row; the second
invocation is a no-op that succeeds with the same identifier as the first
(no error, no second row). -/
theorem save_word_pair_idempotent (s : Store) (uid : Nat) (sw tw : String)
    (ctx1 ctx2 : Option String) (t1 t2 : Nat)
    (hsw : strTrim sw ≠ "") (htw : strTrim tw ≠ "")
    (huniq : UniqueWordPairKeys s.wordPairs) :
    ∃ i : Nat,
      (save_word_pair s uid sw tw ctx1 t1).2 = Except.ok i ∧
      (save_word_pair (save_word_pair s uid sw tw ctx1 t1).1
          uid sw tw ctx2 t2).2 = Except.ok i ∧
      (save_word_pair (save_word_pair s uid sw tw ctx1 t1).1
          uid sw tw ctx2 t2).1.wordPairs
        = (save_word_pair s uid sw tw ctx1 t1).1.wordPairs ∧
      countKey (save_word_pair (save_word_pair s uid sw tw ctx1 t1).1
          uid sw tw ctx2 t2).1.wordPairs uid sw tw = 1 := by
  have hcond : ¬(strTrim sw = "" ∨ strTrim tw = "") := by
    simp [hsw, htw]
  cases hfind : s.wordPairs.find? (keyMatches uid sw tw) with
  | some p =>
      have hcount := countKey_eq_one_of_find s.wordPairs uid sw tw p hfind huniq
      exact ⟨p.id, by simp [save_word_pair, hcond, hfind],
        by simp [save_word_pair, hcond, hfind],
        by simp [save_word_pair, hcond, hfind],
        by simp [save_word_pair, hcond, hfind, hcount]⟩
  | none =>
      have hzero := countKey_eq_zero_of_find_none s.wordPairs uid sw tw hfind
      have hself := keyMatches_self uid sw tw ctx1 s.nextId t1
      refine ⟨s.nextId, by simp [save_word_pair, hcond, hfind], ?_, ?_, ?_⟩
      · simp [save_word_pair, hcond, hfind, List.find?_cons_of_pos _ hself]
      · simp [save_word_pair, hcond, hfind, List.find?_cons_of_pos _ hself]
      · simp only [save_word_pair, hcond, if_false, hfind,
          List.find?_cons_of_pos _ hself]
        simp [countKey, List.countP_cons_of_pos _ _ hself, countKey] at hzero ⊢
        simpa [countKey] using hzero

/-- Witness for C1 at a concrete input: saving ("kot", "cat") twice for
user 1 into an empty store. -/
theorem save_word_pair_idempotent_witness :
    ∃ i : Nat,
      (save_word_pair emptyStore 1 "kot" "cat" (some "Kot siedzi.") 5).2
          = Except.ok i ∧
      (save_word_pair (save_word_pair emptyStore 1 "kot" "cat"
          (some "Kot siedzi.") 5).1 1 "kot" "cat" none 6).2 = Except.ok i ∧
      (save_word_pair (save_word_pair emptyStore 1 "kot" "cat"
          (some "Kot siedzi.") 5).1 1 "kot" "cat" none 6).1.wordPairs
        = (save_word_pair emptyStore 1 "kot" "cat" (some "Kot siedzi.") 5).1.wordPairs ∧
      countKey (save_word_pair (save_word_pair emptyStore 1 "kot" "cat"
          (some "Kot siedzi.") 5).1 1 "kot" "cat" none 6).1.wordPairs 1 "kot" "cat" = 1 :=
  save_word_pair_idempotent emptyStore 1 "kot" "cat" (some "Kot siedzi.") none 5 6
    (by decide) (by decide) uniqueWordPairKeys_nil

end Wordplan
